import Mathlib

/-!
Verification development for the invite-reward chat bot in `src/api/index.py`.

The bot keeps four persisted collections (a user registry, an eligibility
set, a progress-count mapping and a leaderboard mapping) and a handful of
webhook handlers.  Each handler below is shallowly embedded as a pure Lean
function from an explicit pre-state (plus the event data the platform
delivers) to a post-state together with the list of outgoing messages.
User identifiers are modelled as `Nat` (the Python code keys the two
mappings by `str(user_id)`; since `str` is injective on ids we key them by
the id itself), chat identifiers as `Int` (group ids are negative).
Python `dict`s are modelled as association lists with first-occurrence
lookup and replace-or-append update, matching `dict.get` / `dict[k] = v`.
-/

namespace MyLastBot

/-- Threshold constant `MEMBERS_TO_ADD = 10` from the configuration block. -/
def MEMBERS_TO_ADD : Nat := 10

/-! ## Python dict operations on association lists -/

/-- Model of Python `d.get(k, dflt)`: value at the first occurrence of the
key, or the default. -/
def dictGet {β : Type} : List (Nat × β) → Nat → β → β
  | [], _, dflt => dflt
  | p :: rest, k, dflt => if p.1 = k then p.2 else dictGet rest k dflt

/-- Model of Python `d[k] = v`: replace the value at the first occurrence of
the key, or append a fresh entry at the end (dict insertion order). -/
def dictSet {β : Type} : List (Nat × β) → Nat → β → List (Nat × β)
  | [], k, v => [(k, v)]
  | p :: rest, k, v => if p.1 = k then (k, v) :: rest else p :: dictSet rest k v

/-! ## Persisted data model (the four JSON documents) -/

/-- One leaderboard value: `{'name': ..., 'count': ...}`. -/
structure LBEntry where
  name : String
  count : Nat
deriving DecidableEq, Repr

/-- The four persisted collections: `bot_users.json`, `eligible_users.json`,
`user_add_counts.json`, `leaderboard.json`. -/
structure BotState where
  users : Finset Nat
  eligible : Finset Nat
  counts : List (Nat × Nat)
  leaderboard : List (Nat × LBEntry)
deriving DecidableEq

/-- Model of `load_json_data`: the backing file is either absent, unreadable
or undecodable (the caught `JSONDecodeError` / `IOError` /
`FileNotFoundError` cases), or holds a decoded document. -/
inductive FileState (α : Type) where
  | absent
  | corrupt
  | stored (data : α)
deriving DecidableEq

/-- Embedding of `load_json_data(filename, data_type)`: an absent file and a
file whose read or decode fails both yield the empty collection
`data_type()`; otherwise the decoded document is returned. -/
def load_json_data {α : Type} (empty : α) (fs : FileState α) : α :=
  match fs with
  | .absent => empty
  | .corrupt => empty
  | .stored d => d

/-! ## handle_new_members -/

/-- Data carried by a `NEW_CHAT_MEMBERS` status update: the chat it happened
in, the adding user (`message.from_user`) and the first names of the added
members (`message.new_chat_members`). -/
structure NewMembersEvent where
  chatId : Int
  adderId : Nat
  adderName : String
  newMembers : List String
deriving DecidableEq, Repr

/-- Outgoing replies of `handle_new_members`. -/
inductive GroupMsg where
  | welcome (memberName : String)
  | congrats (adderName : String)
  | progress (adderName : String) (current target : Nat)
deriving DecidableEq, Repr

/-- Embedding of `handle_new_members` (src/api/index.py lines 116-145):
ignore events outside the target group; register the adder; welcome each new
member; add `num_added` to the adder progress count and to the leaderboard
cumulative count; on reaching the threshold, grant eligibility and reset the
persisted progress count to 0 with a congratulation, otherwise persist the
incremented count with a progress reply. -/
def handle_new_members (targetGroupId : Int) (st : BotState) (ev : NewMembersEvent) :
    BotState × List GroupMsg :=
  if ev.chatId ≠ targetGroupId then (st, [])
  else
    let numAdded := ev.newMembers.length
    let users := insert ev.adderId st.users
    let welcomes := ev.newMembers.map GroupMsg.welcome
    let currentCount := dictGet st.counts ev.adderId 0 + numAdded
    let counts := dictSet st.counts ev.adderId currentCount
    let userInfo := dictGet st.leaderboard ev.adderId ⟨ev.adderName, 0⟩
    let userInfo := { userInfo with count := userInfo.count + numAdded, name := ev.adderName }
    let leaderboard := dictSet st.leaderboard ev.adderId userInfo
    if MEMBERS_TO_ADD ≤ currentCount then
      ({ users := users
         eligible := insert ev.adderId st.eligible
         counts := dictSet counts ev.adderId 0
         leaderboard := leaderboard },
       welcomes ++ [GroupMsg.congrats ev.adderName])
    else
      ({ users := users
         eligible := st.eligible
         counts := counts
         leaderboard := leaderboard },
       welcomes ++ [GroupMsg.progress ev.adderName currentCount MEMBERS_TO_ADD])

/-- Folding `handle_new_members` over a sequence of membership events. -/
def runNewMemberEvents (targetGroupId : Int) (st : BotState) :
    List NewMembersEvent → BotState
  | [] => st
  | ev :: rest =>
      runNewMemberEvents targetGroupId (handle_new_members targetGroupId st ev).1 rest

/-- Cumulative leaderboard count of a user (0 when absent). -/
def lbCount (st : BotState) (u : Nat) : Nat :=
  (dictGet st.leaderboard u ⟨"", 0⟩).count

/-- Current progress count of a user (0 when absent), as in `counts.get`. -/
def progressCount (st : BotState) (u : Nat) : Nat :=
  dictGet st.counts u 0

/-! ## create_command (entry of the `/create` conversation) -/

/-- Conversation-handler return values: `ConversationHandler.END` or one of
the numbered states `range(4)`. -/
inductive ConvState where
  | ended
  | choosingStyle
  | typingName
  | typingBroadcast
  | confirmBroadcast
deriving DecidableEq, Repr

/-- Outgoing replies of `create_command`. -/
inductive CreateCmdMsg where
  | denial
  | stylePreview
  | previewMissing
deriving DecidableEq, Repr

/-- Embedding of `create_command` (src/api/index.py lines 165-177): register
the caller, reject callers outside the eligibility set and end the
conversation, otherwise send the first style-preview page (ending with an
admin-facing error reply if the preview asset is missing) and move to
`CHOOSING_STYLE`. -/
def create_command (st : BotState) (userId : Nat) (previewExists : Bool) :
    BotState × List CreateCmdMsg × ConvState :=
  let st := { st with users := insert userId st.users }
  if userId ∉ st.eligible then
    (st, [CreateCmdMsg.denial], ConvState.ended)
  else if previewExists then
    (st, [CreateCmdMsg.stylePreview], ConvState.choosingStyle)
  else
    (st, [CreateCmdMsg.previewMissing], ConvState.ended)

/-! ## handle_name_and_create (name entry and artifact render) -/

/-- Removal of a user from the eligibility set, as performed by the success
branch of `handle_name_and_create` (`eligible_users.discard(user_id)`). -/
def consumeEligibility (eligible : Finset Nat) (userId : Nat) : Finset Nat :=
  eligible.erase userId

/-- Outcome of `create_name_image`: either the path of the rendered file
(`(output_filename, None)`) or an error description (`(None, error)`). -/
inductive RenderResult where
  | ok (path : String)
  | err (msg : String)
deriving DecidableEq, Repr

/-- Replies sent to the requesting user by `handle_name_and_create`. -/
inductive CreateUserMsg where
  | preparing
  | photo (name : String)
  | apology
deriving DecidableEq, Repr

/-- Messages sent to the admin by `handle_name_and_create`. -/
inductive AdminMsg where
  | renderError (userName errorDetail : String)
deriving DecidableEq, Repr

/-- Result of one run of `handle_name_and_create`: the persisted eligibility
set, the set of files remaining in scratch storage, the replies to the user
and the admin, and whether the conversation ended. -/
structure NameCreateOutcome where
  eligible : Finset Nat
  tmpFiles : Finset String
  userMsgs : List CreateUserMsg
  adminMsgs : List AdminMsg
  conversationEnded : Bool
deriving DecidableEq

/-- Embedding of `handle_name_and_create` (src/api/index.py lines 198-217).
The render outcome of `create_name_image` is an input (the renderer itself
is filesystem- and library-bound); `tmpFiles` is the scratch directory
content after rendering, so on success it contains the rendered path.  On
success the photo is delivered, the caller is discarded from the
eligibility set, and the file is removed in the `finally` block; on failure
the user gets a generic apology, the admin gets the error detail, and
nothing else changes.  Both branches clear session data and end the
conversation. -/
def handle_name_and_create (eligible : Finset Nat) (tmpFiles : Finset String)
    (userId : Nat) (userName name : String) (render : RenderResult) :
    NameCreateOutcome :=
  match render with
  | .ok path =>
      { eligible := consumeEligibility eligible userId
        tmpFiles := tmpFiles.erase path
        userMsgs := [CreateUserMsg.preparing, CreateUserMsg.photo name]
        adminMsgs := []
        conversationEnded := true }
  | .err msg =>
      { eligible := eligible
        tmpFiles := tmpFiles
        userMsgs := [CreateUserMsg.preparing, CreateUserMsg.apology]
        adminMsgs := [AdminMsg.renderError userName msg]
        conversationEnded := true }

/-! ## top_command -/

/-- Stable descending insertion: place the entry before the first element
whose count is not strictly greater, so earlier-listed entries keep their
position among equal counts. -/
def insertDesc (e : LBEntry) : List LBEntry → List LBEntry
  | [] => [e]
  | a :: rest => if e.count < a.count then a :: insertDesc e rest else e :: a :: rest

/-- Stable sort by count descending.  Python `sorted(..., reverse=True)` is
a stable descending sort, and a stable descending sort of a list is unique,
so this structural insertion sort computes the same list. -/
def sortDesc : List LBEntry → List LBEntry
  | [] => []
  | a :: rest => insertDesc a (sortDesc rest)

/-- Embedding of the query inside `top_command` (src/api/index.py lines
158-160): leaderboard values sorted by count descending (ties keep dict
order), truncated to the first 5. -/
def getTop (leaderboard : List (Nat × LBEntry)) : List LBEntry :=
  (sortDesc (leaderboard.map Prod.snd)).take 5

/-- Reply of `top_command`. -/
inductive TopMsg where
  | noData
  | board (entries : List LBEntry)
deriving DecidableEq, Repr

/-- Embedding of `top_command` (src/api/index.py lines 153-163): an empty
leaderboard document answers with a no-data notice, otherwise the top five
entries are listed. -/
def top_command (leaderboard : List (Nat × LBEntry)) : TopMsg :=
  if leaderboard.isEmpty then TopMsg.noData
  else TopMsg.board (getTop leaderboard)

/-! ## Broadcast confirmation -/

/-- Model of Python `str.lower` as used on the confirmation reply (ASCII
case folding; the compared literal `'yes'` is ASCII). -/
def strLower (s : String) : String :=
  ⟨s.data.map Char.toLower⟩

/-- Result of one run of `handle_broadcast_confirmation`: whether the
broadcast was cancelled, the recipients a delivery was attempted for (in
order), and the tallied success and failure counts of the final report. -/
structure BroadcastOutcome where
  cancelled : Bool
  attempted : List Nat
  sent : Nat
  failed : Nat
deriving DecidableEq, Repr

/-- The delivery loop of `handle_broadcast_confirmation` (src/api/index.py
lines 274-280): every send is tried; a raised delivery error only bumps the
failure tally and the loop continues.  `deliver` tells whether the send to
a given user succeeds. -/
def broadcastLoop (deliver : Nat → Bool) (users : List Nat) : Nat × Nat :=
  users.foldl (fun acc u => if deliver u then (acc.1 + 1, acc.2) else (acc.1, acc.2 + 1))
    (0, 0)

/-- Embedding of `handle_broadcast_confirmation` (src/api/index.py lines
267-283): any reply other than a case-insensitive `yes` cancels without
sending anything; on `yes`, delivery is attempted to every member of the
user-registry snapshot and the sent/failed tallies are reported. -/
def handle_broadcast_confirmation (usersSnapshot : List Nat) (deliver : Nat → Bool)
    (replyText : String) : BroadcastOutcome :=
  if strLower replyText ≠ "yes" then
    { cancelled := true, attempted := [], sent := 0, failed := 0 }
  else
    let tally := broadcastLoop deliver usersSnapshot
    { cancelled := false
      attempted := usersSnapshot
      sent := tally.1
      failed := tally.2 }

/-! ## Helper lemmas -/

theorem dictGet_dictSet_self {β : Type} (d : List (Nat × β)) (k : Nat) (v dflt : β) :
    dictGet (dictSet d k v) k dflt = v := by
  induction d with
  | nil => simp [dictSet, dictGet]
  | cons p rest ih =>
    by_cases h : p.1 = k
    · simp [dictSet, dictGet, h]
    · simpa [dictSet, dictGet, h] using ih

theorem dictGet_dictSet_ne {β : Type} (d : List (Nat × β)) (k k' : Nat) (v dflt : β)
    (h : k' ≠ k) : dictGet (dictSet d k v) k' dflt = dictGet d k' dflt := by
  induction d with
  | nil => simp [dictSet, dictGet, Ne.symm h]
  | cons p rest ih =>
    by_cases hp : p.1 = k
    · simp [dictSet, dictGet, hp, Ne.symm h]
    · by_cases hp' : p.1 = k'
      · simp [dictSet, dictGet, hp, hp', h]
      · simpa [dictSet, dictGet, hp, hp'] using ih

/-- The count looked up with a zero-count default does not depend on the
default name. -/
theorem dictGet_count_default (lb : List (Nat × LBEntry)) (k : Nat) (a b : String) :
    (dictGet lb k ⟨a, 0⟩).count = (dictGet lb k ⟨b, 0⟩).count := by
  induction lb with
  | nil => simp [dictGet]
  | cons p rest ih =>
    by_cases h : p.1 = k
    · simp [dictGet, h]
    · simpa [dictGet, h] using ih

/-- The post-state leaderboard of an on-target membership event. -/
theorem leaderboard_step (targetGroupId : Int) (st : BotState) (ev : NewMembersEvent)
    (h : ev.chatId = targetGroupId) :
    (handle_new_members targetGroupId st ev).1.leaderboard
      = dictSet st.leaderboard ev.adderId
          ⟨ev.adderName,
           (dictGet st.leaderboard ev.adderId ⟨ev.adderName, 0⟩).count
             + ev.newMembers.length⟩ := by
  unfold handle_new_members
  rw [if_neg (by simp [h])]
  by_cases hc : MEMBERS_TO_ADD ≤ dictGet st.counts ev.adderId 0 + ev.newMembers.length <;>
    simp [hc]

/-- One membership event never decreases any leaderboard cumulative count. -/
theorem lbCount_step_mono (targetGroupId : Int) (st : BotState) (ev : NewMembersEvent)
    (u : Nat) : lbCount st u ≤ lbCount (handle_new_members targetGroupId st ev).1 u := by
  by_cases h : ev.chatId = targetGroupId
  · rw [lbCount, lbCount, leaderboard_step targetGroupId st ev h]
    by_cases hu : u = ev.adderId
    · rw [hu, dictGet_dictSet_self]
      calc (dictGet st.leaderboard ev.adderId ⟨"", 0⟩).count
          = (dictGet st.leaderboard ev.adderId ⟨ev.adderName, 0⟩).count :=
            dictGet_count_default _ _ _ _
        _ ≤ _ := Nat.le_add_right _ _
    · rw [dictGet_dictSet_ne _ _ _ _ _ hu]
  · simp [handle_new_members, h]

/-- Success and failure tallies of the delivery loop, with a general
accumulator. -/
theorem broadcastLoop_foldl (deliver : Nat → Bool) (users : List Nat) (s f : Nat) :
    users.foldl
        (fun acc u => if deliver u then (acc.1 + 1, acc.2) else (acc.1, acc.2 + 1)) (s, f)
      = (s + users.countP deliver, f + users.countP (fun u => ! deliver u)) := by
  induction users generalizing s f with
  | nil => simp
  | cons u rest ih =>
    by_cases h : deliver u
    · simp [List.countP_cons, h, ih]
      omega
    · simp [List.countP_cons, h, ih]
      omega

theorem broadcastLoop_eq (deliver : Nat → Bool) (users : List Nat) :
    broadcastLoop deliver users
      = (users.countP deliver, users.countP (fun u => ! deliver u)) := by
  simpa using broadcastLoop_foldl deliver users 0 0

theorem countP_add_countP_not (p : Nat → Bool) (l : List Nat) :
    l.countP p + l.countP (fun u => ! p u) = l.length := by
  induction l with
  | nil => simp
  | cons u rest ih =>
    by_cases h : p u
    · simp [List.countP_cons, h]
      omega
    · simp [List.countP_cons, h]
      omega

theorem mem_insertDesc (e x : LBEntry) (l : List LBEntry) :
    x ∈ insertDesc e l ↔ x = e ∨ x ∈ l := by
  induction l with
  | nil => simp [insertDesc]
  | cons a rest ih =>
    by_cases h : e.count < a.count
    · simp [insertDesc, h, ih]
      tauto
    · simp [insertDesc, h]

theorem pairwise_insertDesc (e : LBEntry) (l : List LBEntry)
    (h : l.Pairwise (fun a b => b.count ≤ a.count)) :
    (insertDesc e l).Pairwise (fun a b => b.count ≤ a.count) := by
  induction l with
  | nil => simp [insertDesc]
  | cons a rest ih =>
    rcases List.pairwise_cons.1 h with ⟨ha, hrest⟩
    by_cases hc : e.count < a.count
    · rw [insertDesc, if_pos hc]
      refine List.pairwise_cons.2 ⟨?_, ih hrest⟩
      intro x hx
      rcases (mem_insertDesc e x rest).1 hx with rfl | hxr
      · exact Nat.le_of_lt hc
      · exact ha x hxr
    · rw [insertDesc, if_neg hc]
      refine List.pairwise_cons.2 ⟨?_, h⟩
      intro x hx
      rcases List.mem_cons.1 hx with rfl | hxr
      · exact Nat.le_of_not_lt hc
      · exact Nat.le_trans (ha x hxr) (Nat.le_of_not_lt hc)

theorem mem_sortDesc (x : LBEntry) (l : List LBEntry) :
    x ∈ sortDesc l ↔ x ∈ l := by
  induction l with
  | nil => simp [sortDesc]
  | cons a rest ih => simp [sortDesc, mem_insertDesc, ih]

theorem pairwise_sortDesc (l : List LBEntry) :
    (sortDesc l).Pairwise (fun a b => b.count ≤ a.count) := by
  induction l with
  | nil => simp [sortDesc]
  | cons a rest ih => exact pairwise_insertDesc a _ ih

/-! ## Claim theorems -/

/-- C9: for every persisted document, loading it when the backing file is
absent or its contents are corrupt (an unreadable or undecodable file)
returns the empty collection of the requested type instead of raising an
error (`load_json_data` is total and yields `data_type()` in both cases). -/
theorem C9_load_json_data_empty_on_absent_or_corrupt {α : Type} (empty : α) :
    load_json_data empty FileState.absent = empty ∧
    load_json_data empty FileState.corrupt = empty :=
  ⟨rfl, rfl⟩

/-- C5: consuming eligibility is idempotent: removing a user twice yields the
same eligibility set as removing once, and removing an absent member is a
no-op. -/
theorem C5_consumeEligibility_idempotent (s : Finset Nat) (u : Nat) :
    consumeEligibility (consumeEligibility s u) u = consumeEligibility s u ∧
    (u ∉ s → consumeEligibility s u = s) :=
  ⟨Finset.erase_idem, fun h => Finset.erase_eq_of_not_mem h⟩

/-- Witness for C5 at the concrete set `{1, 2}` and user `3`. -/
theorem C5_witness :
    consumeEligibility (consumeEligibility ({1, 2} : Finset Nat) 3) 3
        = consumeEligibility ({1, 2} : Finset Nat) 3 ∧
    consumeEligibility ({1, 2} : Finset Nat) 3 = ({1, 2} : Finset Nat) :=
  ⟨(C5_consumeEligibility_idempotent {1, 2} 3).1,
   (C5_consumeEligibility_idempotent {1, 2} 3).2 (by decide)⟩

/-- C10: a membership event whose chat identifier differs from the target
group identifier leaves every persisted collection unchanged and sends no
reply: the handler returns the pre-state and an empty message list. -/
theorem C10_off_target_event_is_noop (targetGroupId : Int) (st : BotState)
    (ev : NewMembersEvent) (h : ev.chatId ≠ targetGroupId) :
    handle_new_members targetGroupId st ev = (st, []) := by
  simp [handle_new_members, h]

/-- Witness for C10: an event in chat 5 with target group 1. -/
theorem C10_witness :
    handle_new_members 1 ⟨{3}, ∅, [(3, 4)], []⟩ ⟨5, 7, "A", ["B"]⟩
      = (⟨{3}, ∅, [(3, 4)], []⟩, []) :=
  C10_off_target_event_is_noop 1 ⟨{3}, ∅, [(3, 4)], []⟩ ⟨5, 7, "A", ["B"]⟩ (by decide)

/-- C6: in the broadcast confirmation state, delivery proceeds (the flow is
not cancelled) exactly when the reply text equals `yes` case-insensitively;
for every other reply no delivery is attempted, the tallies are zero, and
the flow terminates as cancelled. -/
theorem C6_broadcast_confirmation_iff (users : List Nat) (deliver : Nat → Bool)
    (t : String) :
    ((handle_broadcast_confirmation users deliver t).cancelled = false ↔
        strLower t = "yes") ∧
    (strLower t ≠ "yes" →
      (handle_broadcast_confirmation users deliver t).cancelled = true ∧
      (handle_broadcast_confirmation users deliver t).attempted = [] ∧
      (handle_broadcast_confirmation users deliver t).sent = 0 ∧
      (handle_broadcast_confirmation users deliver t).failed = 0) := by
  by_cases h : strLower t = "yes" <;> simp [handle_broadcast_confirmation, h]

/-- Witness for C6 at the concrete reply `No`, which does not confirm. -/
theorem C6_witness :
    (handle_broadcast_confirmation [1, 2] (fun _ => true) "No").cancelled = true ∧
    (handle_broadcast_confirmation [1, 2] (fun _ => true) "No").attempted = [] :=
  ⟨((C6_broadcast_confirmation_iff [1, 2] (fun _ => true) "No").2 (by decide)).1,
   ((C6_broadcast_confirmation_iff [1, 2] (fun _ => true) "No").2 (by decide)).2.1⟩

/-- C7: on a confirmed broadcast, delivery is attempted for every member of
the registry snapshot in order; one failed delivery does not abort the
rest (the tallies count every member independently), and the reported
sent-count plus failed-count equals the registry size. -/
theorem C7_broadcast_tallies (users : List Nat) (deliver : Nat → Bool) (t : String)
    (h : strLower t = "yes") :
    (handle_broadcast_confirmation users deliver t).attempted = users ∧
    (handle_broadcast_confirmation users deliver t).sent = users.countP deliver ∧
    (handle_broadcast_confirmation users deliver t).failed
        = users.countP (fun u => ! deliver u) ∧
    (handle_broadcast_confirmation users deliver t).sent
        + (handle_broadcast_confirmation users deliver t).failed = users.length := by
  have hl := broadcastLoop_eq deliver users
  refine ⟨?_, ?_, ?_, ?_⟩ <;>
    simp [handle_broadcast_confirmation, h, hl, countP_add_countP_not]

/-- Witness for C7, the scenario of spec section 8: three registered users,
delivery to user 2 fails, confirmation `YES` (case-insensitive): the report
reads sent 2, failed 1, and all three deliveries were attempted. -/
theorem C7_witness :
    (handle_broadcast_confirmation [1, 2, 3] (fun u => u != 2) "YES").attempted
        = [1, 2, 3] ∧
    (handle_broadcast_confirmation [1, 2, 3] (fun u => u != 2) "YES").sent = 2 ∧
    (handle_broadcast_confirmation [1, 2, 3] (fun u => u != 2) "YES").failed = 1 := by
  have h := C7_broadcast_tallies [1, 2, 3] (fun u => u != 2) "YES" (by decide)
  exact ⟨h.1, h.2.1.trans (by decide), h.2.2.1.trans (by decide)⟩

/-- C8: the top query on an empty leaderboard yields an empty result (and
`top_command` answers with its no-data notice rather than erroring); for
every leaderboard the result has at most 5 entries, contains only
leaderboard values, and is ordered by cumulative count descending. -/
theorem C8_getTop_spec (lb : List (Nat × LBEntry)) :
    getTop [] = [] ∧
    top_command [] = TopMsg.noData ∧
    (getTop lb).length ≤ 5 ∧
    (∀ e, e ∈ getTop lb → e ∈ lb.map Prod.snd) ∧
    (getTop lb).Pairwise (fun a b => b.count ≤ a.count) := by
  refine ⟨rfl, rfl, ?_, ?_, ?_⟩
  · simp only [getTop, List.length_take]
    exact min_le_left _ _
  · intro e he
    exact (mem_sortDesc e _).1 (List.Sublist.mem he (List.take_sublist 5 _))
  · exact List.Pairwise.sublist (List.take_sublist 5 _) (pairwise_sortDesc _)

/-- Witness for C8 on a concrete two-entry leaderboard: the top entry is a
leaderboard value. -/
theorem C8_witness :
    getTop [] = [] ∧
    (⟨"b", 7⟩ : LBEntry) ∈ getTop [(1, ⟨"a", 3⟩), (2, ⟨"b", 7⟩)] ∧
    (⟨"b", 7⟩ : LBEntry) ∈ [(1, (⟨"a", 3⟩ : LBEntry)), (2, ⟨"b", 7⟩)].map Prod.snd := by
  have h := C8_getTop_spec [(1, ⟨"a", 3⟩), (2, ⟨"b", 7⟩)]
  exact ⟨h.1, by decide, h.2.2.2.1 ⟨"b", 7⟩ (by decide)⟩

/-- C1: an on-target membership event increments the inviter progress count
by the number of new members; if the updated value reaches the threshold the
inviter joins the eligibility set (growing it by at most one member, so
eligibility is granted at most once per event) and the persisted count for
the inviter is reset to 0 in the same update; otherwise the incremented
value is persisted. -/
theorem C1_threshold_crossing (targetGroupId : Int) (st : BotState)
    (ev : NewMembersEvent) (h : ev.chatId = targetGroupId) :
    (MEMBERS_TO_ADD ≤ progressCount st ev.adderId + ev.newMembers.length →
       (handle_new_members targetGroupId st ev).1.eligible
           = insert ev.adderId st.eligible ∧
       progressCount (handle_new_members targetGroupId st ev).1 ev.adderId = 0 ∧
       (handle_new_members targetGroupId st ev).1.eligible.card
           ≤ st.eligible.card + 1) ∧
    (progressCount st ev.adderId + ev.newMembers.length < MEMBERS_TO_ADD →
       (handle_new_members targetGroupId st ev).1.eligible = st.eligible ∧
       progressCount (handle_new_members targetGroupId st ev).1 ev.adderId
           = progressCount st ev.adderId + ev.newMembers.length) := by
  constructor
  · intro hc
    have hc' : MEMBERS_TO_ADD ≤ dictGet st.counts ev.adderId 0 + ev.newMembers.length := hc
    refine ⟨?_, ?_, ?_⟩ <;>
      simp [handle_new_members, h, hc', progressCount, dictGet_dictSet_self,
        Finset.card_insert_le]
  · intro hlt
    have hc' : ¬ MEMBERS_TO_ADD ≤ dictGet st.counts ev.adderId 0 + ev.newMembers.length :=
      Nat.not_le.2 hlt
    refine ⟨?_, ?_⟩ <;>
      simp [handle_new_members, h, hc', progressCount, dictGet_dictSet_self]

/-- Witness for C1, the scenario of spec section 8: a user at count 9 adds
one member in the target group, becomes eligible and the stored count
resets to 0. -/
theorem C1_witness :
    (handle_new_members 1 ⟨∅, ∅, [(7, 9)], []⟩ ⟨1, 7, "A", ["Abel"]⟩).1.eligible
        = insert 7 (∅ : Finset Nat) ∧
    progressCount (handle_new_members 1 ⟨∅, ∅, [(7, 9)], []⟩ ⟨1, 7, "A", ["Abel"]⟩).1 7
        = 0 := by
  have h := (C1_threshold_crossing 1 ⟨∅, ∅, [(7, 9)], []⟩ ⟨1, 7, "A", ["Abel"]⟩ rfl).1
    (by decide)
  exact ⟨h.1, h.2.1⟩

/-- C4: across any sequence of membership events the leaderboard cumulative
count of every user never decreases; on every on-target event the
leaderboard count and the progress count are updated together (the former
grows by the number of new members, the latter is set to the incremented
value or reset to 0 on crossing); and a concrete crossing event strictly
decreases the stored progress count, so progress is not monotone. -/
theorem C4_leaderboard_monotone_progress_resets :
    (∀ (targetGroupId : Int) (st : BotState) (evs : List NewMembersEvent) (u : Nat),
        lbCount st u ≤ lbCount (runNewMemberEvents targetGroupId st evs) u) ∧
    (∀ (targetGroupId : Int) (st : BotState) (ev : NewMembersEvent),
        ev.chatId = targetGroupId →
        lbCount (handle_new_members targetGroupId st ev).1 ev.adderId
            = lbCount st ev.adderId + ev.newMembers.length ∧
        progressCount (handle_new_members targetGroupId st ev).1 ev.adderId
            = (if MEMBERS_TO_ADD ≤ progressCount st ev.adderId + ev.newMembers.length
               then 0
               else progressCount st ev.adderId + ev.newMembers.length)) ∧
    progressCount
        (handle_new_members 1 ⟨∅, ∅, [(7, 9)], [(7, ⟨"A", 9⟩)]⟩ ⟨1, 7, "A", ["B"]⟩).1 7
      < progressCount (⟨∅, ∅, [(7, 9)], [(7, ⟨"A", 9⟩)]⟩ : BotState) 7 := by
  refine ⟨?_, ?_, ?_⟩
  · intro targetGroupId st evs u
    induction evs generalizing st with
    | nil => exact Nat.le_refl _
    | cons ev rest ih =>
      exact Nat.le_trans (lbCount_step_mono targetGroupId st ev u) (ih _)
  · intro targetGroupId st ev h
    constructor
    · rw [lbCount, lbCount, leaderboard_step targetGroupId st ev h, dictGet_dictSet_self,
        dictGet_count_default st.leaderboard ev.adderId "" ev.adderName]
    · by_cases hc : MEMBERS_TO_ADD ≤ dictGet st.counts ev.adderId 0 + ev.newMembers.length
      · simp [handle_new_members, h, hc, progressCount, dictGet_dictSet_self]
      · simp [handle_new_members, h, hc, progressCount, dictGet_dictSet_self]
  · decide

/-- Witness for C4: a user with no leaderboard entry adds two members in the
target group and the cumulative count grows from 0 by 2. -/
theorem C4_witness :
    lbCount (handle_new_members 1 ⟨∅, ∅, [], []⟩ ⟨1, 7, "A", ["B", "C"]⟩).1 7
        = lbCount (⟨∅, ∅, [], []⟩ : BotState) 7 + 2 := by
  have h := C4_leaderboard_monotone_progress_resets.2.1 1 ⟨∅, ∅, [], []⟩
    ⟨1, 7, "A", ["B", "C"]⟩ rfl
  simpa using h.1

/-- C2: in the name-entry step, a successful render consumes the eligibility
entry of the caller and leaves no artifact file behind after delivery; a
failed render still ends the conversation, leaves the eligibility set and
the scratch directory untouched, sends the user a generic apology and sends
the admin the detailed error. -/
theorem C2_name_create_render_outcomes (eligible : Finset Nat) (tmp : Finset String)
    (uid : Nat) (uname nm : String) :
    (∀ path,
       (handle_name_and_create eligible tmp uid uname nm (RenderResult.ok path)).eligible
           = consumeEligibility eligible uid ∧
       path ∉
         (handle_name_and_create eligible tmp uid uname nm (RenderResult.ok path)).tmpFiles ∧
       (handle_name_and_create eligible tmp uid uname nm
           (RenderResult.ok path)).conversationEnded = true) ∧
    (∀ msg,
       (handle_name_and_create eligible tmp uid uname nm (RenderResult.err msg)).eligible
           = eligible ∧
       (handle_name_and_create eligible tmp uid uname nm (RenderResult.err msg)).tmpFiles
           = tmp ∧
       CreateUserMsg.apology ∈
         (handle_name_and_create eligible tmp uid uname nm (RenderResult.err msg)).userMsgs ∧
       (handle_name_and_create eligible tmp uid uname nm (RenderResult.err msg)).adminMsgs
           = [AdminMsg.renderError uname msg] ∧
       (handle_name_and_create eligible tmp uid uname nm
           (RenderResult.err msg)).conversationEnded = true) := by
  constructor
  · intro path
    exact ⟨rfl, Finset.not_mem_erase _ _, rfl⟩
  · intro msg
    exact ⟨rfl, rfl, by simp [handle_name_and_create], rfl, rfl⟩

/-- C3 counterexample: the claim says an ineligible `/create` attempt
creates no state, but `create_command` registers the caller before the
eligibility check, so for a previously unknown ineligible user the
persisted state does change. -/
theorem C3_counterexample :
    (5 : Nat) ∉ (⟨∅, ∅, [], []⟩ : BotState).eligible ∧
    (create_command ⟨∅, ∅, [], []⟩ 5 true).1 ≠ (⟨∅, ∅, [], []⟩ : BotState) := by
  constructor
  · decide
  · intro hst
    have h5 : (5 : Nat) ∈ (create_command ⟨∅, ∅, [], []⟩ 5 true).1.users := by
      simp [create_command]
    rw [hst] at h5
    simp at h5

/-- C3 (amended): for every user not in the eligibility set, `/create` is
rejected with the denial message and the conversation ends immediately; no
conversation state is created and the eligibility set, progress counts and
leaderboard are unchanged, but the caller is still added to the user
registry. -/
theorem C3_ineligible_create_rejected (st : BotState) (userId : Nat)
    (previewExists : Bool) (h : userId ∉ st.eligible) :
    create_command st userId previewExists
      = ({ st with users := insert userId st.users },
         [CreateCmdMsg.denial], ConvState.ended) := by
  simp [create_command, h]

/-- Witness for C3 (amended) at the concrete empty state and user 5. -/
theorem C3_witness :
    create_command ⟨∅, ∅, [], []⟩ 5 true
      = (⟨insert 5 ∅, ∅, [], []⟩, [CreateCmdMsg.denial], ConvState.ended) := by
  have h := C3_ineligible_create_rejected ⟨∅, ∅, [], []⟩ 5 true (by decide)
  simpa using h

end MyLastBot
